import Mathlib

/-!
# Shallow embedding of the valutatrade_hub rates engine

This file embeds, in Lean 4, the parts of the repository that the claims
concern:

* `core/currencies.py` — the currency registry and `get_currency` lookup;
* `parser_service/storage.py` — `RatesStorage.read_current_rates`,
  `RatesStorage.save_current_rates`, `RatesStorage.save_historical_record`,
  `RatesStorage._load_history` and `create_historical_record`;
* `parser_service/api_clients.py` — `CoinGeckoClient.fetch_rates` and
  `ExchangeRateApiClient.fetch_rates` (with `_make_request`,
  `_parse_response` and `_get_fallback_rates`);
* `parser_service/updater.py` — `RatesUpdater.run_update` and its helpers;
* `core/usecases.py` — `PortfolioManager.get_rate`.

Modelling conventions:

* Python floats are modelled as rationals (`ℚ`); the claims are about exact
  arithmetic identities (`0.5`, `1/r`, `t/f`), and every concrete constant
  involved is exactly representable.
* Python dictionaries keyed by strings are modelled as association lists
  (`List (String × _)`) with `List.lookup`; key membership `k in d` becomes
  `(d.lookup k).isSome`.
* A Python function that can raise is modelled with `Except`; a returned
  exception value `.error e` models a raised exception.  A function whose
  body catches every exception (`except Exception`) is modelled as a total
  function without an `Except` result.
* The on-disk state of a JSON file is an inductive: the file may be missing,
  may exist but fail to parse as JSON (`corrupt`, carrying its raw bytes),
  or may parse to the expected shape.
* Wall-clock timestamps (`datetime.now(timezone.utc).isoformat()` etc.) are
  passed in as an explicit `now : String` parameter.
* Filesystem write failures are modelled by a `WriteOutcome` parameter that
  decides whether `RatesStorage._atomic_write` succeeds or raises.
-/

namespace ValutaTrade

/-! ## Currency registry (`core/currencies.py`) -/

/-- Python's `str.upper()` on the ASCII currency codes this program
handles: upper-case every character. -/
def pyUpper (s : String) : String := ⟨s.data.map Char.toUpper⟩

/-- The codes registered by `_initialize_currencies`: three fiat currencies
(`USD`, `EUR`, `RUB`) and two crypto currencies (`BTC`, `ETH`). -/
def currencyCodes : List String := ["USD", "EUR", "RUB", "BTC", "ETH"]

/-- `get_currency` upper-cases its argument and looks it up in the registry;
it raises `CurrencyNotFoundError` exactly when the upper-cased code is not
registered.  This predicate models the success condition of that lookup. -/
def isKnownCurrency (code : String) : Bool :=
  currencyCodes.contains (pyUpper code)

/-! ## Rates snapshot data model (`parser_service/storage.py`, spec §6) -/

/-- One entry of the snapshot's `pairs` mapping:
`{"rate": r, "updated_at": ts, "source": src}`. -/
structure RateEntry where
  rate : ℚ
  updated_at : String
  source : String
deriving DecidableEq, Repr

/-- A parsed snapshot dictionary that contains the `"pairs"` key.
`last_refresh` is `Option`al because `rates_data.get('last_refresh')`
returns `None` when the key is absent. -/
structure Snapshot where
  pairs : List (String × RateEntry)
  last_refresh : Option String
deriving DecidableEq, Repr

/-- On-disk state of `data/rates.json`.  `corrupt` carries the raw content
that fails to parse as JSON. -/
inductive RatesFile where
  | missing
  | corrupt (raw : String)
  | parsed (s : Snapshot)
deriving DecidableEq, Repr

/-- `RatesStorage.read_current_rates`: returns `{}` when the file does not
exist, and catches `(json.JSONDecodeError, Exception)` — i.e. every
exception — returning `{}` when the file fails to parse.  The function is
total (it cannot raise); `none` models the empty dictionary `{}` (and more
generally any result that `PortfolioManager.get_rate` rejects with its
`not rates_data or 'pairs' not in rates_data` guard, which treats `{}` and
a parsed value without a `"pairs"` key identically). -/
def read_current_rates : RatesFile → Option Snapshot
  | .missing => none
  | .corrupt _ => none
  | .parsed s => some s

/-! ## Rate resolution (`core/usecases.py`, `PortfolioManager.get_rate`) -/

/-- Structured reasons for the `ApiRequestError` raised by `get_rate`.
The Python code formats these into message strings; the final
`except Exception` clause re-wraps every internal exception into
`ApiRequestError("Failed to get rate: ...")`, changing only the message
text, so the model keeps the structured reason. -/
inductive RateFailure where
  | ratesUnavailable
  | zeroDivision
  | pairNotFound (from_code to_code : String)
deriving DecidableEq, Repr

/-- Errors raised by `get_rate`: `CurrencyNotFoundError` from the
`get_currency` validation (raised before the snapshot is read), or a
(wrapped) `ApiRequestError` from the resolution body. -/
inductive GetRateError where
  | currencyNotFound (code : String)
  | apiRequest (reason : RateFailure)
deriving DecidableEq, Repr

/-- The dictionary `{'rate': ..., 'updated_at': ...}` returned by
`get_rate`. -/
structure RateResult where
  rate : ℚ
  updated_at : Option String
deriving DecidableEq, Repr

/-- The `from_rate` (resp. `to_rate`) computation of `get_rate`
(usecases.py lines 244–254): take the rate of `{code}_USD` if that pair is
present, else `1.0 / rate` of `USD_{code}` if present, else `None`.
Python raises `ZeroDivisionError` on `1.0 / 0.0`; the model returns an
error in that case rather than letting `ℚ` division silently produce 0. -/
def resolve_usd_leg (pairs : List (String × RateEntry)) (code : String) :
    Except RateFailure (Option ℚ) :=
  match pairs.lookup (code ++ "_USD") with
  | some e => .ok (some e.rate)
  | none =>
    match pairs.lookup ("USD_" ++ code) with
    | some e =>
        if e.rate = 0 then .error .zeroDivision
        else .ok (some (1 / e.rate))
    | none => .ok none

/-- `PortfolioManager.get_rate(from_code, to_code)` as a function of the
on-disk snapshot file.  Control flow follows usecases.py lines 197–266:

1. `get_currency` validation of both codes (raises `CurrencyNotFoundError`);
2. read the snapshot; `{}` or a dict without `'pairs'` raises
   `ApiRequestError("Rates data not available")`;
3. identity: `from_code == to_code` returns rate `1.0` with the snapshot's
   `last_refresh`;
4. direct pair `{from}_{to}`: its rate and its own `updated_at`;
5. inverse pair `{to}_{from}`: `1.0 / rate` (ZeroDivisionError when the
   stored rate is `0.0`) and that entry's own `updated_at`;
6. both legs against `USD`: when both `from_rate` and `to_rate` are
   non-`None` and non-zero (Python truthiness), return
   `to_rate / from_rate` with the snapshot's `last_refresh`;
7. otherwise raise `ApiRequestError` naming the pair. -/
def get_rate (from_code to_code : String) (file : RatesFile) :
    Except GetRateError RateResult :=
  if isKnownCurrency from_code then
    if isKnownCurrency to_code then
      match read_current_rates file with
      | none => .error (.apiRequest .ratesUnavailable)
      | some s =>
        if from_code = to_code then .ok ⟨1, s.last_refresh⟩
        else
          match s.pairs.lookup (from_code ++ "_" ++ to_code) with
          | some e => .ok ⟨e.rate, some e.updated_at⟩
          | none =>
            match s.pairs.lookup (to_code ++ "_" ++ from_code) with
            | some e =>
                if e.rate = 0 then .error (.apiRequest .zeroDivision)
                else .ok ⟨1 / e.rate, some e.updated_at⟩
            | none =>
              match resolve_usd_leg s.pairs from_code with
              | .error r => .error (.apiRequest r)
              | .ok from_rate =>
                match resolve_usd_leg s.pairs to_code with
                | .error r => .error (.apiRequest r)
                | .ok to_rate =>
                  match from_rate, to_rate with
                  | some f, some t =>
                      if f ≠ 0 ∧ t ≠ 0 then .ok ⟨t / f, s.last_refresh⟩
                      else .error (.apiRequest (.pairNotFound from_code to_code))
                  | _, _ => .error (.apiRequest (.pairNotFound from_code to_code))
    else .error (.currencyNotFound (pyUpper to_code))
  else .error (.currencyNotFound (pyUpper from_code))

/-! ## Parser-service configuration (`parser_service/config.py`) -/

/-- The fields of `ParserConfig` that the embedded functions consume. -/
structure ParserConfig where
  EXCHANGERATE_API_KEY : String
  BASE_CURRENCY : String
  FIAT_CURRENCIES : List String
  CRYPTO_CURRENCIES : List String
  CRYPTO_ID_MAP : List (String × String)
deriving DecidableEq, Repr

/-- The global `config = ParserConfig()` instance with its dataclass
defaults (the API key default is non-empty, so the `os.getenv` branch of
`__post_init__` does not run). -/
def config : ParserConfig where
  EXCHANGERATE_API_KEY := "46756b26226a3a722cc8c74f"
  BASE_CURRENCY := "USD"
  FIAT_CURRENCIES := ["EUR", "GBP", "RUB"]
  CRYPTO_CURRENCIES := ["BTC", "ETH", "SOL"]
  CRYPTO_ID_MAP := [("BTC", "bitcoin"), ("ETH", "ethereum"), ("SOL", "solana")]

/-! ## API clients (`parser_service/api_clients.py`) -/

/-- The typed `ApiRequestError(source, reason)` of
`parser_service/exceptions.py`. -/
structure ApiError where
  source : String
  reason : String
deriving DecidableEq, Repr

/-- Outcome of the outbound HTTP call made by `BaseApiClient._make_request`:
a transport failure (timeout, connection error, or a non-2xx status turned
into an exception by `raise_for_status`), a 2xx response whose body fails to
decode as JSON in `response.json()`, or a decoded JSON body. -/
inductive HttpResponse (α : Type) where
  | transportError
  | malformed
  | ok (body : α)
deriving DecidableEq, Repr

/-- `BaseApiClient._make_request`: wraps `requests.exceptions.
RequestException` (which also covers the JSON-decode failure of
`response.json()`) into the typed `ApiRequestError(class name, reason)`. -/
def make_request (sourceName : String) {α : Type} (resp : HttpResponse α) :
    Except ApiError α :=
  match resp with
  | .transportError => .error ⟨sourceName, "transport error"⟩
  | .malformed => .error ⟨sourceName, "malformed response"⟩
  | .ok body => .ok body

/-- CoinGecko response body: for each asset identifier present in the JSON
object, whether it has a `'usd'` price and which.  `(id, none)` models an
entry without the `'usd'` key. -/
def CoinGeckoBody : Type := List (String × Option ℚ)

/-- `CoinGeckoClient._parse_response`: for each `(crypto_code, gecko_id)`
of `CRYPTO_ID_MAP`, emit `{crypto_code}_{BASE}` when `gecko_id` is in the
response with a `'usd'` price. -/
def coingecko_parse_response (cfg : ParserConfig) (data : CoinGeckoBody) :
    List (String × ℚ) :=
  cfg.CRYPTO_ID_MAP.filterMap fun p =>
    match data.lookup p.2 with
    | some (some r) => some (p.1 ++ "_" ++ cfg.BASE_CURRENCY, r)
    | _ => none

/-- The `crypto_ids` list computed by `CoinGeckoClient.fetch_rates`:
the mapped identifier of each configured code that has one. -/
def coingecko_ids (cfg : ParserConfig) : List String :=
  cfg.CRYPTO_CURRENCIES.filterMap fun c => cfg.CRYPTO_ID_MAP.lookup c

/-- `CoinGeckoClient.fetch_rates`: returns `{}` when no cryptocurrency code
is configured; otherwise performs the request and parses it.  Note that its
`except ApiRequestError` clause logs and RE-RAISES, so a transport error or
malformed response propagates to the caller. -/
def coingecko_fetch_rates (cfg : ParserConfig)
    (resp : HttpResponse CoinGeckoBody) : Except ApiError (List (String × ℚ)) :=
  if coingecko_ids cfg = [] then .ok []
  else
    match make_request "CoinGeckoClient" resp with
    | .error e => .error e
    | .ok data => .ok (coingecko_parse_response cfg data)

/-- ExchangeRate-API response body: `data.get('result')` and
`data.get('conversion_rates', {})` (an absent key modelled as `[]`). -/
structure ExchangeRateBody where
  result : Option String
  conversion_rates : List (String × ℚ)
deriving DecidableEq, Repr

/-- `ExchangeRateApiClient._get_fallback_rates`: the static table filtered
to the configured fiat currency list. -/
def get_fallback_rates (cfg : ParserConfig) : List (String × ℚ) :=
  let fallback_rates : List (String × ℚ) :=
    [("EUR_USD", 93/100), ("GBP_USD", 79/100), ("RUB_USD", 11/1000)]
  cfg.FIAT_CURRENCIES.filterMap fun c =>
    (fallback_rates.lookup (c ++ "_" ++ cfg.BASE_CURRENCY)).map
      fun r => (c ++ "_" ++ cfg.BASE_CURRENCY, r)

/-- `ExchangeRateApiClient._parse_response`: a non-`success` `result` falls
back; otherwise emit `{FIAT}_{BASE}` for each configured fiat currency
present in `conversion_rates`. -/
def exchangerate_parse_response (cfg : ParserConfig) (data : ExchangeRateBody) :
    List (String × ℚ) :=
  if data.result ≠ some "success" then get_fallback_rates cfg
  else
    cfg.FIAT_CURRENCIES.filterMap fun c =>
      (data.conversion_rates.lookup c).map
        fun r => (c ++ "_" ++ cfg.BASE_CURRENCY, r)

/-- `ExchangeRateApiClient.fetch_rates`: missing API key, transport error,
malformed response (`except Exception` catches both) and an empty
`conversion_rates` mapping all fall back to the static table; a decoded
body is parsed.  This function never raises. -/
def exchangerate_fetch_rates (cfg : ParserConfig)
    (resp : HttpResponse ExchangeRateBody) :
    Except ApiError (List (String × ℚ)) :=
  if cfg.EXCHANGERATE_API_KEY = "" then .ok (get_fallback_rates cfg)
  else
    match make_request "ExchangeRateApiClient" resp with
    | .error _ => .ok (get_fallback_rates cfg)
    | .ok data =>
        if data.conversion_rates.isEmpty then .ok (get_fallback_rates cfg)
        else .ok (exchangerate_parse_response cfg data)

/-! ## Historical records (`parser_service/storage.py`) -/

/-- One entry of the history file, as built by `create_historical_record`;
`meta` holds the single `raw_pair` annotation the updater passes. -/
structure Record where
  id : String
  from_currency : String
  to_currency : String
  rate : ℚ
  timestamp : String
  source : String
  meta_raw_pair : String
deriving DecidableEq, Repr

/-- `create_historical_record`: the id concatenates the currencies and a
second-precision timestamp; the model uses the same `now` string for the id
timestamp and the ISO `timestamp` field. -/
def create_historical_record (from_currency to_currency : String) (rate : ℚ)
    (source : String) (now : String) (raw_pair : String) : Record where
  id := from_currency ++ "_" ++ to_currency ++ "_" ++ now
  from_currency := pyUpper from_currency
  to_currency := pyUpper to_currency
  rate := rate
  timestamp := now
  source := source
  meta_raw_pair := raw_pair

/-- On-disk state of `data/exchange_rates.json` (the history file). -/
inductive HistFile where
  | missing
  | corrupt (raw : String)
  | parsed (records : List Record)
deriving DecidableEq, Repr

/-- Whether `RatesStorage._atomic_write` succeeds or raises (disk
write/rename failure). -/
inductive WriteOutcome where
  | ok
  | ioError
deriving DecidableEq, Repr

/-- `RatesStorage._load_history`: `[]` when the file does not exist, and
`[]` (with a warning) when it exists but fails to parse — the
`except (json.JSONDecodeError, Exception)` clause catches everything. -/
def load_history : HistFile → List Record
  | .missing => []
  | .corrupt _ => []
  | .parsed records => records

/-- `RatesStorage.save_historical_record`: load the existing history,
append the new record, and atomically rewrite the whole file.  A write
failure is logged and re-raised (the file keeps its previous state, since
`_atomic_write` replaces it only on success). -/
def save_historical_record (w : WriteOutcome) (h : HistFile) (r : Record) :
    Except String HistFile :=
  match w with
  | .ioError => .error "atomic write failed"
  | .ok => .ok (.parsed (load_history h ++ [r]))

/-- `RatesStorage.save_current_rates`: atomically replace the snapshot
file; a write failure is logged and re-raised, leaving the previous file in
place. -/
def save_current_rates (w : WriteOutcome) (d : Snapshot) :
    Except String RatesFile :=
  match w with
  | .ioError => .error "atomic write failed"
  | .ok => .ok (.parsed d)

/-! ## Updater (`parser_service/updater.py`) -/

/-- The two files owned by `RatesStorage`. -/
structure Store where
  ratesFile : RatesFile
  historyFile : HistFile
deriving DecidableEq, Repr

/-- `RatesUpdater._fetch_from_coingecko`: calls the client and converts any
raised exception into an empty mapping. -/
def fetch_from_coingecko (cfg : ParserConfig)
    (resp : HttpResponse CoinGeckoBody) : List (String × ℚ) :=
  match coingecko_fetch_rates cfg resp with
  | .ok rates => rates
  | .error _ => []

/-- `RatesUpdater._fetch_from_exchangerate`: same wrapper for the fiat
client (which in fact never raises). -/
def fetch_from_exchangerate (cfg : ParserConfig)
    (resp : HttpResponse ExchangeRateBody) : List (String × ℚ) :=
  match exchangerate_fetch_rates cfg resp with
  | .ok rates => rates
  | .error _ => []

/-- Python `dict.update`: entries of `upd` overwrite entries of `d` with
the same key (last-write-wins).  The association list keeps one binding per
key; ordering differs from CPython's insertion order, which no claim
observes. -/
def dictUpdate (d upd : List (String × ℚ)) : List (String × ℚ) :=
  d.filter (fun p => (upd.lookup p.1).isNone) ++ upd

/-- The pair's `from_currency`: the part of the key before the `'_'`
separator (`pair_key.split('_')`). -/
def pairFromCurrency (pair_key : String) : String :=
  (pair_key.splitOn "_").headD ""

/-- Source attribution used by `_prepare_rates_data` and
`_save_historical_records`: `"CoinGecko"` when the pair's `from_currency`
is among the upper-cased configured crypto codes, else
`"ExchangeRate-API"`. -/
def sourceFor (cfg : ParserConfig) (pair_key : String) : String :=
  if (cfg.CRYPTO_CURRENCIES.map pyUpper).contains
      (pairFromCurrency pair_key)
  then "CoinGecko" else "ExchangeRate-API"

/-- `RatesUpdater._prepare_rates_data`: tag every merged pair with its
rate, the current timestamp and its source, and stamp `last_refresh`. -/
def prepare_rates_data (cfg : ParserConfig) (all_rates : List (String × ℚ))
    (now : String) : Snapshot where
  pairs := all_rates.map fun p => (p.1, ⟨p.2, now, sourceFor cfg p.1⟩)
  last_refresh := some now

/-- `RatesUpdater._save_historical_records`: one
`create_historical_record` per merged pair, each `save_historical_record`
wrapped in its own `try/except` so a failed write is logged and skipped
(the history file keeps its previous state for that record). -/
def save_historical_records (cfg : ParserConfig) (w : WriteOutcome)
    (h : HistFile) (all_rates : List (String × ℚ)) (now : String) : HistFile :=
  all_rates.foldl
    (fun hf p =>
      let record := create_historical_record (pairFromCurrency p.1)
        ((p.1.splitOn "_").tailD [] |>.headD "") p.2 (sourceFor cfg p.1) now p.1
      match save_historical_record w hf record with
      | .ok hf2 => hf2
      | .error _ => hf)
    h

/-- `RatesUpdater.run_update`: fetch from both clients (exceptions from a
client become an empty mapping), merge with `dict.update` (the `if` guards
on non-empty results only affect the `successful_sources` counter, which no
claim tracks; updating with `{}` is a no-op), return `False` when the merge
is empty, otherwise save the snapshot, then append the historical records,
and return `True`.  The trailing `except Exception` turns any raised
persistence error into a `False` return, so the model is a total function
into `Bool × Store`. -/
def run_update (cfg : ParserConfig) (cgResp : HttpResponse CoinGeckoBody)
    (erResp : HttpResponse ExchangeRateBody) (w wHist : WriteOutcome)
    (st : Store) (now : String) : Bool × Store :=
  let crypto_rates := fetch_from_coingecko cfg cgResp
  let fiat_rates := fetch_from_exchangerate cfg erResp
  let all_rates := dictUpdate (dictUpdate [] crypto_rates) fiat_rates
  if all_rates.isEmpty then (false, st)
  else
    let rates_data := prepare_rates_data cfg all_rates now
    match save_current_rates w rates_data with
    | .error _ => (false, st)
    | .ok ratesFile2 =>
        let hist2 := save_historical_records cfg wHist st.historyFile
          all_rates now
        (true, ⟨ratesFile2, hist2⟩)

/-! ## Claim theorems -/

/-- A snapshot storing exactly the base-currency pairs `BTC_USD = 2.0` and
`ETH_USD = 4.0` (and neither `BTC_ETH` nor `ETH_BTC`), instantiating the
`X`, `Y` of claim C1 with registered currencies. -/
def transitivitySnapshot : Snapshot :=
  ⟨[("BTC_USD", ⟨2, "T1", "CoinGecko"⟩), ("ETH_USD", ⟨4, "T2", "CoinGecko"⟩)],
    some "LR"⟩

/-- Claim C1 (code bug): with `BTC_USD = 2.0` and `ETH_USD = 4.0` stored,
the base-currency path of `get_rate("BTC", "ETH")` returns `2.0`, not the
`0.5` the claim states.  The code computes `to_rate / from_rate`
(usecases.py line 257), which inverts the cross-rate: under the pair
semantics used by the same function's direct branch (`get_rate(A, B)`
answers with the stored `A_B` rate, i.e. `1 A = rate B`) and its inverse
branch (`1 / rate`), `X_USD = 2` and `Y_USD = 4` entail
`1 X = 2 USD = 2/4 Y = 0.5 Y`. -/
theorem c1_transitive_cross_rate_inverted :
    get_rate "BTC" "ETH" (.parsed transitivitySnapshot) = .ok ⟨2, some "LR"⟩ ∧
    (2 : ℚ) ≠ 1 / 2 := by
  constructor
  · have h : get_rate "BTC" "ETH" (.parsed transitivitySnapshot) =
        .ok ⟨4 / 2, some "LR"⟩ := rfl
    rw [h]
    norm_num
  · norm_num

/-- Claim C2 (confirmed): when the pair has no direct and no inverse entry
and both codes resolve against the base currency `USD` (each by
direct-or-inverse lookup, to non-zero rates `fr` and `tr` — Python
truthiness discards a resolved rate of `0.0`), `get_rate` returns
`tr / fr` with the snapshot's `last_refresh` as `updated_at`, not either
leg's own timestamp. -/
theorem c2_cross_rate_via_base (f t : String) (hf : isKnownCurrency f = true)
    (ht : isKnownCurrency t = true) (s : Snapshot)
    (hd : s.pairs.lookup (f ++ "_" ++ t) = none)
    (hr : s.pairs.lookup (t ++ "_" ++ f) = none)
    (fr tr : ℚ)
    (hfr : resolve_usd_leg s.pairs f = .ok (some fr)) (hf0 : fr ≠ 0)
    (htr : resolve_usd_leg s.pairs t = .ok (some tr)) (ht0 : tr ≠ 0) :
    get_rate f t (.parsed s) = .ok ⟨tr / fr, s.last_refresh⟩ := by
  by_cases heq : f = t
  · subst heq
    have hft : fr = tr := by
      rw [hfr] at htr
      exact Option.some.inj (Except.ok.inj htr)
    subst hft
    simp only [get_rate, hf, read_current_rates, if_true, if_pos rfl]
    rw [div_self hf0]
  · simp only [get_rate, hf, ht, read_current_rates, if_true, heq, if_false,
      hd, hr, hfr, htr]
    rw [if_pos ⟨hf0, ht0⟩]

/-- A snapshot with base-currency legs `EUR_USD = 2` and `BTC_USD = 4` and
no `EUR_BTC`/`BTC_EUR` entry, used to witness claim C2. -/
def crossRateSnapshot : Snapshot :=
  ⟨[("EUR_USD", ⟨2, "TA", "ExchangeRate-API"⟩), ("BTC_USD", ⟨4, "TB", "CoinGecko"⟩)],
    some "LR2"⟩

/-- Witness for claim C2 at a concrete snapshot: the legs resolve to
`fr = 2` and `tr = 4`, and `get_rate("EUR", "BTC")` returns `4 / 2 = 2`
with the snapshot's `last_refresh`. -/
theorem c2_cross_rate_via_base_witness :
    crossRateSnapshot.pairs.lookup "EUR_BTC" = none ∧
    resolve_usd_leg crossRateSnapshot.pairs "EUR" = .ok (some 2) ∧
    resolve_usd_leg crossRateSnapshot.pairs "BTC" = .ok (some 4) ∧
    get_rate "EUR" "BTC" (.parsed crossRateSnapshot) = .ok ⟨2, some "LR2"⟩ := by
  refine ⟨rfl, rfl, rfl, ?_⟩
  have h := c2_cross_rate_via_base "EUR" "BTC" rfl rfl crossRateSnapshot rfl rfl
    2 4 rfl (by norm_num) rfl (by norm_num)
  rw [h]
  norm_num [crossRateSnapshot]

/-- Claim C3 (counterexample): on a missing snapshot file
`get_rate("USD", "USD")` raises `ApiRequestError` ("Rates data not
available") instead of returning rate `1.0` — the availability guard at
usecases.py line 212 runs before the identity branch at line 216. -/
theorem c3_identity_counterexample :
    get_rate "USD" "USD" .missing = .error (.apiRequest .ratesUnavailable) := rfl

/-- Claim C3 (amended): for every valid code `A`, `get_rate(A, A)` returns
exactly rate `1.0` with the snapshot's `last_refresh` whenever the snapshot
parses and contains a `pairs` mapping (whatever its contents); on a
missing or unparseable snapshot it instead raises the rate-unavailable
`ApiRequestError`. -/
theorem c3_identity_amended (a : String) (h : isKnownCurrency a = true)
    (s : Snapshot) :
    get_rate a a (.parsed s) = .ok ⟨1, s.last_refresh⟩ ∧
    get_rate a a .missing = .error (.apiRequest .ratesUnavailable) ∧
    ∀ raw, get_rate a a (.corrupt raw) = .error (.apiRequest .ratesUnavailable) := by
  refine ⟨?_, ?_, fun raw => ?_⟩ <;> simp [get_rate, h, read_current_rates]

/-- Witness for amended claim C3 at `A = "USD"` and a parsed snapshot with
an empty `pairs` mapping. -/
theorem c3_identity_amended_witness :
    isKnownCurrency "USD" = true ∧
    get_rate "USD" "USD" (.parsed ⟨[], some "LR"⟩) = .ok ⟨1, some "LR"⟩ := by
  refine ⟨rfl, ?_⟩
  exact (c3_identity_amended "USD" rfl ⟨[], some "LR"⟩).1

/-- Claim C4 (counterexample): `CoinGeckoClient.fetch_rates` raises the
typed `ApiRequestError` on a transport error — its
`except ApiRequestError` clause (api_clients.py line 64) logs and
re-raises instead of degrading to an empty mapping. -/
theorem c4_fetch_counterexample :
    coingecko_fetch_rates config .transportError =
      .error ⟨"CoinGeckoClient", "transport error"⟩ := rfl

/-- Claim C4 (amended): the fiat-rate client's `fetch_rates` never raises —
for every failure mode it returns a mapping (fallback rates or an empty
parse result); the crypto-rate client's `fetch_rates` returns an empty
mapping on missing configuration (no configured crypto identifiers), but
on a network/transport error or malformed response it raises
`ApiRequestError`, which the updater (not the client) catches. -/
theorem c4_fetch_failure_modes_amended (cfg : ParserConfig)
    (respF : HttpResponse ExchangeRateBody) (respC : HttpResponse CoinGeckoBody) :
    (∃ rates, exchangerate_fetch_rates cfg respF = .ok rates) ∧
    (coingecko_ids cfg = [] → coingecko_fetch_rates cfg respC = .ok []) ∧
    (coingecko_ids cfg ≠ [] →
      coingecko_fetch_rates cfg .transportError =
        .error ⟨"CoinGeckoClient", "transport error"⟩ ∧
      coingecko_fetch_rates cfg .malformed =
        .error ⟨"CoinGeckoClient", "malformed response"⟩) := by
  refine ⟨?_, ?_, ?_⟩
  · unfold exchangerate_fetch_rates
    by_cases hk : cfg.EXCHANGERATE_API_KEY = ""
    · simp [hk]
    · simp only [hk, if_false]
      cases respF with
      | transportError => exact ⟨_, rfl⟩
      | malformed => exact ⟨_, rfl⟩
      | ok body =>
          simp only [make_request]
          split <;> exact ⟨_, rfl⟩
  · intro h
    simp [coingecko_fetch_rates, h]
  · intro h
    constructor <;> simp [coingecko_fetch_rates, h, make_request]

/-- Witness for amended claim C4 at the real `config`: the fiat client
survives a transport error (returning some mapping), the crypto identifier
list is non-empty, and the crypto client raises on the same failure. -/
theorem c4_fetch_failure_modes_amended_witness :
    (∃ rates, exchangerate_fetch_rates config .transportError = .ok rates) ∧
    coingecko_ids config ≠ [] ∧
    coingecko_fetch_rates config .transportError =
      .error ⟨"CoinGeckoClient", "transport error"⟩ := by
  refine ⟨(c4_fetch_failure_modes_amended config .transportError .transportError).1,
    by decide, ?_⟩
  exact ((c4_fetch_failure_modes_amended config .transportError .transportError).2.2
    (by decide)).1

/-- Claim C5 (confirmed): whenever both Source Clients return an empty
mapping, `run_update` returns `false` and neither the snapshot file nor
the history file of the store is modified — the empty-merge check at
updater.py line 44 returns before any storage call. -/
theorem c5_empty_merge_no_write (cfg : ParserConfig)
    (cgResp : HttpResponse CoinGeckoBody) (erResp : HttpResponse ExchangeRateBody)
    (w wHist : WriteOutcome) (st : Store) (now : String)
    (hcg : coingecko_fetch_rates cfg cgResp = .ok [])
    (her : exchangerate_fetch_rates cfg erResp = .ok []) :
    run_update cfg cgResp erResp w wHist st now = (false, st) := by
  simp only [run_update, fetch_from_coingecko, fetch_from_exchangerate, hcg, her,
    dictUpdate, List.filter_nil, List.nil_append, List.isEmpty_nil, if_true]

/-- Witness for claim C5: with the real `config`, an empty CoinGecko price
object and a successful fiat response quoting only an unconfigured
currency, both clients return `{}` and `run_update` leaves the store
untouched. -/
theorem c5_empty_merge_no_write_witness :
    coingecko_fetch_rates config (.ok ([] : CoinGeckoBody)) = .ok [] ∧
    exchangerate_fetch_rates config (.ok ⟨some "success", [("JPY", 1)]⟩) = .ok [] ∧
    run_update config (.ok []) (.ok ⟨some "success", [("JPY", 1)]⟩) .ok .ok
      ⟨.missing, .missing⟩ "T0" = (false, ⟨.missing, .missing⟩) := by
  refine ⟨rfl, rfl, ?_⟩
  exact c5_empty_merge_no_write config (.ok []) (.ok ⟨some "success", [("JPY", 1)]⟩)
    .ok .ok ⟨.missing, .missing⟩ "T0" rfl rfl

/-- Claim C6 (confirmed): for distinct valid codes with `A_B` stored at
rate `r > 0` and `B_A` absent, `get_rate(B, A)` returns `1 / r` with the
stored entry's own `updated_at` (the inverse-pair branch, usecases.py
lines 228–233). -/
theorem c6_inverse_pair (a b : String) (ha : isKnownCurrency a = true)
    (hb : isKnownCurrency b = true) (hne : b ≠ a) (s : Snapshot) (e : RateEntry)
    (hdir : s.pairs.lookup (a ++ "_" ++ b) = some e)
    (hpos : 0 < e.rate)
    (habs : s.pairs.lookup (b ++ "_" ++ a) = none) :
    get_rate b a (.parsed s) = .ok ⟨1 / e.rate, some e.updated_at⟩ := by
  simp only [get_rate, hb, ha, read_current_rates, if_true, hne, if_false,
    habs, hdir]
  rw [if_neg hpos.ne']

/-- A snapshot storing only `BTC_USD = 2` (so `USD_BTC` is absent), used to
witness claim C6. -/
def inverseSnapshot : Snapshot := ⟨[("BTC_USD", ⟨2, "T1", "CoinGecko"⟩)], some "LR"⟩

/-- Witness for claim C6: `get_rate("USD", "BTC")` against a snapshot
holding only `BTC_USD = 2` returns `1 / 2` with that entry's timestamp. -/
theorem c6_inverse_pair_witness :
    inverseSnapshot.pairs.lookup "BTC_USD" = some ⟨2, "T1", "CoinGecko"⟩ ∧
    inverseSnapshot.pairs.lookup "USD_BTC" = none ∧
    get_rate "USD" "BTC" (.parsed inverseSnapshot) = .ok ⟨1 / 2, some "T1"⟩ := by
  refine ⟨rfl, rfl, ?_⟩
  exact c6_inverse_pair "BTC" "USD" rfl rfl (by decide) inverseSnapshot
    ⟨2, "T1", "CoinGecko"⟩ rfl (by norm_num) rfl

/-- Claim C7 (confirmed): `read_current_rates` returns the empty result —
and, being a total function whose Python body catches every exception,
does not raise — both when the snapshot file does not exist and when it
exists but fails to parse as JSON. -/
theorem c7_read_snapshot_empty :
    read_current_rates .missing = none ∧
    ∀ raw, read_current_rates (.corrupt raw) = none :=
  ⟨rfl, fun _ => rfl⟩

/-- Claim C8 (confirmed): `run_update` never propagates an exception — it
is a total function into `Bool × Store` — and in particular when the
snapshot write raises a persistence error, the trailing
`except Exception` clause (updater.py line 61) converts it into a `false`
return with the store unchanged. -/
theorem c8_write_failure_returns_false (cfg : ParserConfig)
    (cgResp : HttpResponse CoinGeckoBody) (erResp : HttpResponse ExchangeRateBody)
    (wHist : WriteOutcome) (st : Store) (now : String) :
    run_update cfg cgResp erResp .ioError wHist st now = (false, st) := by
  simp only [run_update, save_current_rates]
  split <;> rfl

/-- Claim C9 (confirmed): when the history file exists but fails to parse,
`save_historical_record` succeeds and rewrites the file to a list holding
exactly the one new record — `_load_history` swallows the parse failure
and returns `[]`, discarding all previously stored records. -/
theorem c9_corrupt_history_discarded (raw : String) (r : Record) :
    save_historical_record .ok (.corrupt raw) r = .ok (.parsed [r]) := rfl

/-- Claim C10 (confirmed): when either code is unknown to the currency
registry, `get_rate` raises `CurrencyNotFoundError` naming the first
unknown (upper-cased) code, for every snapshot file state — the
`get_currency` validation runs before the snapshot is read — including
when `from_code = to_code`; the error is never the identity rate `1.0`
nor a rate-unavailable `ApiRequestError`. -/
theorem c10_unknown_currency_rejected (f t : String) (file : RatesFile)
    (h : isKnownCurrency f = false ∨ isKnownCurrency t = false) :
    get_rate f t file =
      .error (.currencyNotFound
        (if isKnownCurrency f then pyUpper t else pyUpper f)) := by
  by_cases hf : isKnownCurrency f
  · have ht : isKnownCurrency t = false := by
      rcases h with h1 | h1
      · rw [hf] at h1; exact absurd h1 (by simp)
      · exact h1
    simp [get_rate, hf, ht]
  · simp [get_rate, hf]

/-- Witness for claim C10 at the unknown code `"zzz"` with
`from_code = to_code` and a missing snapshot: the result is
`CurrencyNotFoundError("ZZZ")`, not rate `1.0` and not the
rate-unavailable error. -/
theorem c10_unknown_currency_rejected_witness :
    (isKnownCurrency "zzz" = false ∨ isKnownCurrency "zzz" = false) ∧
    get_rate "zzz" "zzz" .missing = .error (.currencyNotFound "ZZZ") := by
  refine ⟨Or.inl rfl, ?_⟩
  exact (c10_unknown_currency_rejected "zzz" "zzz" .missing (Or.inl rfl)).trans rfl

end ValutaTrade
